import Mathlib

/-!
Verification of the Google/Gemini streaming proxy route of this repository.

The sources embedded here are:
* `src/app/api/google.ts` — the live route: `handle` (OPTIONS short-circuit,
  auth, API-key resolution) and `request` (deadline timer, heartbeat
  interval in the REAL_WRITE variant, asynchronous splice loop with
  catch/finally cleanup, immediate 200 SSE response).
* `src/unnamed/part_000` — an alternate revision of the same route whose
  splice loop re-shapes upstream chunks instead of copying them verbatim.

Pure computations (header resolution, URL building, frame strings) become
Lean functions.  The asynchronous relay becomes a function from the
session parameters (number of heartbeat firings while the upstream call is
pending, the upstream outcome) to the finite list of observable events
(writes to the output stream, timer clears, abort, writer close), following
the single-threaded event-loop scheduling the runtime provides: between two
suspension points no timer callback runs.

JavaScript string primitives are modelled by structurally recursive
functions on character lists, so that every definition evaluates inside the
kernel.
-/

namespace GoogleRoute

/-! ## JavaScript string primitives -/

def ofChars (l : List Char) : String := ⟨l⟩

/-- Whether the first list is a prefix of the second. -/
def isPrefixL : List Char → List Char → Bool
  | [], _ => true
  | _ :: _, [] => false
  | p :: ps, c :: cs => p == c && isPrefixL ps cs

/-- Whether the pattern (second argument) occurs somewhere in the first
argument. -/
def containsL : List Char → List Char → Bool
  | [], pat => pat.isEmpty
  | c :: rest, pat => isPrefixL pat (c :: rest) || containsL rest pat

/-- Whether `pat` occurs as a substring of `s`. -/
def occursIn (pat s : String) : Bool := containsL s.data pat.data

/-- JavaScript `String.prototype.trim`: strip whitespace from both ends. -/
def jsTrim (s : String) : String :=
  ofChars (((s.data.dropWhile Char.isWhitespace).reverse.dropWhile Char.isWhitespace).reverse)

def replaceAllFuel (pat repl : List Char) : Nat → List Char → List Char
  | _, [] => []
  | 0, s => s
  | fuel + 1, c :: cs =>
      if !pat.isEmpty && isPrefixL pat (c :: cs) then
        repl ++ replaceAllFuel pat repl fuel (List.drop (pat.length - 1) cs)
      else c :: replaceAllFuel pat repl fuel cs

/-- JavaScript `String.prototype.replaceAll` with a string pattern. -/
def jsReplaceAll (s pat repl : String) : String :=
  ofChars (replaceAllFuel pat.data repl.data s.data.length s.data)

def replaceFirstL (pat repl : List Char) : List Char → List Char
  | [] => []
  | c :: cs =>
      if !pat.isEmpty && isPrefixL pat (c :: cs) then
        repl ++ List.drop (pat.length - 1) cs
      else c :: replaceFirstL pat repl cs

/-- JavaScript `String.prototype.replace` with a string pattern: only the
first occurrence is replaced. -/
def jsReplaceFirst (s pat repl : String) : String :=
  ofChars (replaceFirstL pat.data repl.data s.data)

/-- JavaScript `String.prototype.startsWith`. -/
def jsStartsWith (s pat : String) : Bool := isPrefixL pat.data s.data

/-- JavaScript `String.prototype.endsWith`. -/
def jsEndsWith (s pat : String) : Bool := isPrefixL pat.data.reverse s.data.reverse

/-- JavaScript `s.slice(0, -1)`: drop the last character. -/
def sliceDropLast (s : String) : String := ofChars s.data.dropLast

/-- JavaScript `a || b` where `a : string | null` comes from `headers.get`:
`null` and the empty string are falsy and fall through to `b`. -/
def jsOrStr (a : Option String) (b : String) : String :=
  match a with
  | none => b
  | some s => if s = "" then b else s

/-! ## Inbound request, config and collaborators -/

/-- The parts of the inbound `NextRequest` the route reads: method, the two
credential headers, the URL pathname and the query parameters. -/
structure Req where
  method : String
  xGoogApiKey : Option String
  authHdr : Option String
  pathname : String
  searchParams : List (String × String)
  deriving DecidableEq

/-- URLSearchParams.get: value of the first parameter with the given name,
or null. -/
def getParam (q : List (String × String)) (name : String) : Option String :=
  match q.find? (fun p => p.1 == name) with
  | some p => some p.2
  | none => none

/-- The fields of the server-side config the route reads; the empty string
models an unset environment variable. -/
structure ServerConfig where
  googleApiKey : String
  googleUrl : String
  deriving DecidableEq

/-- Modelled from the spec: the Auth Resolver collaborator (`./auth` is not
among the sources) "returns success or an authorization failure"; the route
only inspects `authResult.error`. -/
structure AuthResult where
  error : Bool
  deriving DecidableEq

/-! ## The `handle` entry point (google.ts lines 9-50) -/

/-- google.ts lines 26-27: credential extraction,
`req.headers.get("x-goog-api-key") || req.headers.get("Authorization") || ""`. -/
def bearToken (req : Req) : String :=
  jsOrStr req.xGoogApiKey (jsOrStr req.authHdr "")

/-- google.ts line 28: `bearToken.trim().replaceAll("Bearer ", "").trim()`. -/
def token (req : Req) : String :=
  jsTrim (jsReplaceAll (jsTrim (bearToken req)) "Bearer " "")

/-- google.ts line 30: `const apiKey = token ? token : serverConfig.googleApiKey`. -/
def resolvedApiKey (cfg : ServerConfig) (req : Req) : String :=
  if token req = "" then cfg.googleApiKey else token req

/-- Body of the 401 sent when no API key could be resolved (google.ts
lines 33-41). -/
structure ErrBody where
  error : Bool
  message : String
  deriving DecidableEq

/-- google.ts line 36. -/
def missingKeyMessage : String := "missing GOOGLE_API_KEY in server env vars"

def missingKeyBody : ErrBody :=
  { error := true, message := missingKeyMessage }

/-- Result of `handle` (google.ts lines 9-50), by control-flow branch. -/
inductive HandleResult where
  | optionsOk
  | authRejected (authResult : AuthResult)
  | missingKey
  | relayStarted (apiKey : String)
  deriving DecidableEq

/-- google.ts lines 9-50: OPTIONS short-circuit, then auth, then API-key
resolution, then the relay. -/
def handle (cfg : ServerConfig) (authResult : AuthResult) (req : Req) : HandleResult :=
  if req.method = "OPTIONS" then .optionsOk
  else if authResult.error then .authRejected authResult
  else if resolvedApiKey cfg req = "" then .missingKey
  else .relayStarted (resolvedApiKey cfg req)

/-- HTTP status of each branch: 200 for the OPTIONS acknowledgement
(line 16), 401 for both rejection branches (lines 22, 39), and 200 for the
relay, since `request` returns `new Response(responseStream, status: 200)`
(lines 243-250). -/
def handleStatus : HandleResult → Nat
  | .optionsOk => 200
  | .authRejected _ => 401
  | .missingKey => 401
  | .relayStarted _ => 200

/-- Only the relay branch opens the output stream, starts the heartbeat
interval and makes the upstream call. -/
def opensStream : HandleResult → Bool
  | .relayStarted _ => true
  | _ => false

/-! ## Upstream request construction (google.ts lines 71-115) -/

/-- google.ts lines 104-106: the outbound `x-goog-api-key` header is rebuilt
from the inbound headers only; the resolved `apiKey` argument of `request`
is never used.  JavaScript `replace` here replaces only the first
occurrence of "Bearer ". -/
def outboundApiKeyHeader (req : Req) : String :=
  jsOrStr req.xGoogApiKey (jsReplaceFirst (req.authHdr.getD "") "Bearer " "")

/-- google.ts line 74: `serverConfig.googleUrl || GEMINI_BASE_URL`; the
constant GEMINI_BASE_URL lives in `app/constant`, outside the sources, and
is kept as a parameter. -/
def rawBaseUrl (cfg : ServerConfig) (geminiBaseUrl : String) : String :=
  if cfg.googleUrl = "" then geminiBaseUrl else cfg.googleUrl

/-- google.ts lines 78-84: prepend "https://" when the base does not start
with "http", drop one trailing slash. -/
def normalizeBaseUrl (b : String) : String :=
  let b1 := if jsStartsWith b "http" then b else "https://" ++ b
  if jsEndsWith b1 "/" then sliceDropLast b1 else b1

/-- google.ts line 76: strip every occurrence of the route prefix
(`ApiPath.Google`, a constant from `app/constant`, kept as a parameter)
from the inbound pathname. -/
def routePath (apiPathGoogle : String) (req : Req) : String :=
  jsReplaceAll req.pathname apiPathGoogle ""

/-- google.ts lines 95-97: the only query parameter ever forwarded is
`alt`, and only when its inbound value is exactly "sse". -/
def fetchQuery (req : Req) : String :=
  if getParam req.searchParams "alt" = some "sse" then "?alt=sse" else ""

/-- google.ts lines 95-97: the upstream URL. -/
def fetchUrl (cfg : ServerConfig) (geminiBaseUrl apiPathGoogle : String) (req : Req) : String :=
  normalizeBaseUrl (rawBaseUrl cfg geminiBaseUrl) ++ routePath apiPathGoogle req
    ++ fetchQuery req

/-- google.ts line 93: the absolute deadline, in milliseconds. -/
def DEADLINE_MS : Nat := 10 * 60 * 1000

/-- google.ts line 122. -/
def HEARTBEAT_INTERVAL : Nat := 2 * 1000

/-- google.ts lines 243-250: the client-facing response is created
immediately, before the upstream call resolves. -/
structure SseResponse where
  status : Nat
  contentType : String
  cacheControl : String
  connection : String
  deriving DecidableEq

def relayResponse : SseResponse :=
  { status := 200
    contentType := "text/event-stream"
    cacheControl := "no-cache"
    connection := "keep-alive" }

/-! ## Observable events of one relay session

The async task of `request` (google.ts lines 156-239) runs on the
single-threaded event loop; the heartbeat interval can only fire while the
task is suspended at an `await`.  A session trace is the list of observable
actions in the order they are performed. -/

/-- Which write site of google.ts produced a frame. -/
inductive WriteSite where
  | heartbeat      -- the interval callback, lines 144-152
  | transitional   -- the time-cost frame at the first loop entry, line 195
  | upstreamData   -- the splice loop, line 204
  | upstreamErr    -- the non-ok branch, line 163
  | caughtErr      -- the catch block, line 211
  deriving DecidableEq

inductive Ev where
  | write (site : WriteSite) (s : String)
  | clearHeartbeat   -- clearInterval on the heartbeat interval
  | clearDeadline    -- clearTimeout(timeoutId), line 215
  | abortUpstream    -- controller.abort() from the deadline timer, line 91
  | close            -- writer.close(), line 233
  deriving DecidableEq

/-! ### Frame texts (google.ts REAL_WRITE variant, lines 121-152) -/

/-- JSON string escaping as performed by `JSON.stringify` on the embedded
message/body strings. -/
def jsonEscapeChar (c : Char) : String :=
  if c = '\\' then "\\\\"
  else if c = '"' then "\\\""
  else if c = '\n' then "\\n"
  else if c = '\r' then "\\r"
  else if c = '\t' then "\\t"
  else String.singleton c

def jsonEscape (s : String) : String := String.join (s.data.map jsonEscapeChar)

/-- A JSON string literal. -/
def jsonStr (s : String) : String := "\"" ++ jsonEscape s ++ "\""

/-- The SSE envelope every synthetic frame of the REAL_WRITE variant is
wrapped in (google.ts lines 150, 163, 195): a well-formed partial model
response whose only variable part is the `text` field. -/
def envelopePre : String :=
  "data: \x7b\"candidates\":[\x7b\"content\":\x7b\"role\":\"model\",\"parts\":[\x7b\"text\":\""

def envelopePost : String :=
  "\"\x7d]\x7d,\"finishReason\":null,\"index\":0,\"safetyRatings\":[]\x7d],\"promptFeedback\":\x7b\"safetyRatings\":[]\x7d\x7d\n\n"

def envelope (text : String) : String := envelopePre ++ text ++ envelopePost

/-- google.ts lines 145-149: the first heartbeat writes "> Waiting.", later
ones append a dot; `wrote` is the `intervalRealWrite_wrote` flag. -/
def hbText (wrote : Bool) : String := if wrote then "." else "> Waiting."

/-- The writes produced by `n` firings of the heartbeat interval, starting
with flag state `wrote`. -/
def hbTicks (wrote : Bool) : Nat → List Ev
  | 0 => []
  | n + 1 => .write .heartbeat (envelope (hbText wrote)) :: hbTicks true n

/-- google.ts lines 190-194: the transitional time-cost frame text;
`timeCost` stands for the rendering of `(Date.now() - nowTime) / 1000`. -/
def transText (wrote : Bool) (timeCost : String) : String :=
  let ws := " (time cost: " ++ timeCost ++ "s)\\n\\n"
  if wrote then ws else "> " ++ ws

/-- google.ts line 162: `JSON.stringify(error:true, message, body, null, 2)`. -/
def errorEventJson (status : Nat) (statusText bodyText : String) : String :=
  "\x7b\n  \"error\": true,\n  \"message\": "
    ++ jsonStr ("Upstream Error: " ++ toString status ++ " " ++ statusText)
    ++ ",\n  \"body\": " ++ jsonStr bodyText ++ "\n\x7d"

/-- google.ts line 163: the non-ok response is reported inside the envelope
as a fenced json block. -/
def upstreamErrFrame (status : Nat) (statusText bodyText : String) : String :=
  envelope ("\\n\\n```json\\n" ++ errorEventJson status statusText bodyText ++ "\\n```")

/-- google.ts line 164: the error thrown after reporting a non-ok response. -/
def upstreamFailMessage (status : Nat) : String :=
  "[Alive] Upstream fetch failed with status " ++ toString status

/-- google.ts lines 210-211: the catch block frame,
`data: JSON.stringify(error:true, message)` followed by a blank line. -/
def catchFrame (msg : String) : String :=
  "data: \x7b\"error\":true,\"message\":" ++ jsonStr msg ++ "\x7d\n\n"

/-! ### The session trace (google.ts lines 156-239) -/

/-- How the upstream body ends once `fetch` resolved with an ok status:
normal end-of-stream, or a rejected `reader.read()` (for instance after the
deadline abort fires mid-stream). -/
inductive StreamEnd where
  | eos
  | readFail (msg : String)
  deriving DecidableEq

/-- Resolution of `await fetch(fetchUrl, fetchOptions)`:
the promise rejects (network failure or abort), or resolves non-ok (the
body text is then read, during which `bodyTicks` more heartbeats fire), or
resolves ok with a stream of decoded chunks. -/
inductive UpstreamOutcome where
  | fetchFail (msg : String)
  | httpErr (status : Nat) (statusText : String) (bodyTicks : Nat) (bodyText : String)
  | httpOk (chunks : List String) (ending : StreamEnd)
  deriving DecidableEq

/-- google.ts lines 213-235: the finally block; the heartbeat interval is
cleared only when it was not already cleared and nulled by the splice loop. -/
def finallyEvs (hbActive : Bool) : List Ev :=
  .clearDeadline :: (if hbActive then [.clearHeartbeat] else []) ++ [.close]

/-- google.ts line 204: each chunk is decoded and re-encoded, then written
unchanged. -/
def chunkWrites (chunks : List String) : List Ev :=
  chunks.map (fun c => .write .upstreamData c)

/-- The trace of one session of the google.ts relay: `fetchTicks` heartbeat
firings happen while `fetch` is pending, then the async task resumes.  In
the ok case the splice loop clears the interval and writes the transitional
frame before the first `reader.read()` (lines 174-200); no heartbeat can
fire later because the interval is already cleared.  In the non-ok case the
interval keeps firing while `res.text()` is awaited and is only cleared in
the finally block. -/
def runRelay (fetchTicks : Nat) (oc : UpstreamOutcome) (timeCost : String) : List Ev :=
  match oc with
  | .fetchFail msg =>
      hbTicks false fetchTicks
        ++ [.write .caughtErr (catchFrame msg)]
        ++ finallyEvs true
  | .httpErr status statusText bodyTicks bodyText =>
      hbTicks false fetchTicks
        ++ hbTicks (decide (0 < fetchTicks)) bodyTicks
        ++ [.write .upstreamErr (upstreamErrFrame status statusText bodyText),
            .write .caughtErr (catchFrame (upstreamFailMessage status))]
        ++ finallyEvs true
  | .httpOk chunks ending =>
      hbTicks false fetchTicks
        ++ [.clearHeartbeat,
            .write .transitional (envelope (transText (decide (0 < fetchTicks)) timeCost))]
        ++ chunkWrites chunks
        ++ (match ending with
            | .eos => []
            | .readFail msg => [.write .caughtErr (catchFrame msg)])
        ++ finallyEvs false

/-- Whether the deadline timer (google.ts lines 89-94) fires before the
upstream call resolves: `fetchMs = none` models a call that never resolves. -/
def deadlineExceeded (fetchMs : Option Nat) : Bool :=
  match fetchMs with
  | none => true
  | some d => DEADLINE_MS ≤ d

/-- The session trace with the deadline timer taken into account: when the
upstream call has not resolved at DEADLINE_MS, the timer callback calls
`controller.abort()`, the pending `fetch` rejects with an abort error, and
the catch/finally path of `runRelay` follows. -/
def timedRelay (fetchTicks : Nat) (fetchMs : Option Nat) (resolved : UpstreamOutcome)
    (abortMsg timeCost : String) : List Ev :=
  if deadlineExceeded fetchMs then
    hbTicks false fetchTicks
      ++ [.abortUpstream, .write .caughtErr (catchFrame abortMsg)]
      ++ finallyEvs true
  else
    runRelay fetchTicks resolved timeCost

/-! ### Trace observations -/

def isHBWrite : Ev → Bool
  | .write .heartbeat _ => true
  | _ => false

def isWriteEv : Ev → Bool
  | .write _ _ => true
  | _ => false

/-- No heartbeat frame anywhere in the list. -/
def noHBWrite (l : List Ev) : Bool := l.all (fun e => !isHBWrite e)

/-- The heartbeat frames form a prefix of the written frames: scanning the
trace, once any non-heartbeat frame has been written, no heartbeat frame
may follow. -/
def hbPhaseFirst : List Ev → Bool
  | [] => true
  | e :: rest =>
      if isHBWrite e then hbPhaseFirst rest
      else if isWriteEv e then noHBWrite rest
      else hbPhaseFirst rest

/-- The heartbeat interval is cleared strictly before any upstream chunk is
forwarded (vacuously true when no chunk is ever forwarded). -/
def tickerStoppedBeforeData : List Ev → Bool
  | [] => true
  | .clearHeartbeat :: _ => true
  | .write .upstreamData _ :: _ => false
  | _ :: rest => tickerStoppedBeforeData rest

/-- The strings written to the output stream, in order. -/
def writes : List Ev → List String
  | [] => []
  | .write _ s :: l => s :: writes l
  | _ :: l => writes l

/-- The strings written by the splice loop, in order. -/
def dataWrites : List Ev → List String
  | [] => []
  | .write .upstreamData s :: l => s :: dataWrites l
  | _ :: l => dataWrites l

/-- A frame carrying an error payload: its content contains the JSON key
"error" (heartbeat, transitional and relayed-model frames never do). -/
def isErrorFrameStr (s : String) : Bool := occursIn "\"error\"" s

def errorFrameCount (l : List Ev) : Nat := ((writes l).filter isErrorFrameStr).length

/-! ## The part_000 variant of the route -/

namespace PartZero

/-- part_000 collapses `chunk.choices[0]?.delta?.content` with optional
chaining; absent pieces give undefined, modelled as `none`. -/
structure Chunk where
  deltaContent : Option String
  deriving DecidableEq

/-- part_000 line 148: `const text = chunk.choices[0]?.delta?.content || ""`. -/
def textOf (c : Chunk) : String := c.deltaContent.getD ""

/-- part_000 line 154: the forwarded frame,
`data: JSON.stringify(text)` followed by a blank line. -/
def chunkFrame (t : String) : String :=
  "data: \x7b\"text\":" ++ jsonStr t ++ "\x7d\n\n"

/-- part_000 line 126: the heartbeat writes a fixed text, every tick. -/
def hbFrame : String := "Waiting...\n"

def hbTicksP (n : Nat) : List Ev :=
  List.replicate n (.write .heartbeat hbFrame)

/-- part_000 lines 141-156: the for-await loop; the interval is cleared at
the first chunk (but `intervalId` is never nulled), and a chunk is
forwarded only when its extracted text is nonempty. -/
def loopEvs : List Chunk → Bool → List Ev
  | [], _ => []
  | c :: rest, first =>
      (if first then [Ev.clearHeartbeat] else [])
        ++ (if textOf c = "" then [] else [Ev.write .upstreamData (chunkFrame (textOf c))])
        ++ loopEvs rest false

/-- part_000 lines 157-165: the finally block; `intervalId` is still
non-null even when the loop already cleared it, so clearInterval is always
called again here. -/
def finallyEvsP : List Ev := [.clearDeadline, .clearHeartbeat, .close]

/-- Resolution of the upstream call in part_000; there is no `res.ok` check
and no catch block, so a rejected fetch or read reaches the finally block
without writing any error frame. -/
inductive Outcome where
  | fetchFail (msg : String)
  | ok (chunks : List Chunk)
  deriving DecidableEq

/-- The trace of one session of the part_000 relay. -/
def run (fetchTicks : Nat) (oc : Outcome) : List Ev :=
  match oc with
  | .fetchFail _ => hbTicksP fetchTicks ++ finallyEvsP
  | .ok chunks => hbTicksP fetchTicks ++ loopEvs chunks true ++ finallyEvsP

end PartZero

/-! ## The guarded stop of the heartbeat interval (google.ts lines 186-189,
226-231): `clearInterval` is only called while `intervalRealWrite` is
non-null, and the variable is nulled in the same step. -/

/-- `active` models `intervalRealWrite` being non-null. -/
structure TickerState where
  active : Bool
  deriving DecidableEq

/-- The guarded clearInterval-and-null step the code performs both in the
splice loop and in the finally block. -/
def stopTicker (s : TickerState) : TickerState × List Ev :=
  if s.active then ({ active := false }, [Ev.clearHeartbeat]) else (s, [])

/-- One firing of the heartbeat callback: a frame is written only while the
interval is still installed. -/
def tickOnce (s : TickerState) (wrote : Bool) : List Ev :=
  if s.active then [Ev.write .heartbeat (envelope (hbText wrote))] else []

/-! ## Concrete inputs used by witnesses and counterexamples -/

/-- A POST request carrying no credential header and no query parameters. -/
def req0 : Req :=
  { method := "POST"
    xGoogApiKey := none
    authHdr := none
    pathname := "/api/google/v1beta/models/gemini-pro:streamGenerateContent"
    searchParams := [] }

/-- A server config with no fallback key and no base-URL override. -/
def cfg0 : ServerConfig := { googleApiKey := "", googleUrl := "" }

/-- A server config with a fallback key. -/
def cfg1 : ServerConfig := { googleApiKey := "fallback-key", googleUrl := "" }

def authOk : AuthResult := { error := false }

/-! ## Helper lemmas -/

theorem isPrefixL_append (p l r : List Char) (h : isPrefixL p l = true) :
    isPrefixL p (l ++ r) = true := by
  induction p generalizing l with
  | nil => simp [isPrefixL]
  | cons c cs ih =>
      cases l with
      | nil => simp [isPrefixL] at h
      | cons d ds =>
          simp only [List.cons_append, isPrefixL, Bool.and_eq_true] at h ⊢
          exact ⟨h.1, ih ds h.2⟩

theorem containsL_nil_pat (s : List Char) : containsL s [] = true := by
  cases s <;> simp [containsL, isPrefixL]

theorem containsL_append_left (s r pat : List Char) (h : containsL s pat = true) :
    containsL (s ++ r) pat = true := by
  induction s with
  | nil =>
      simp only [containsL] at h
      cases pat with
      | nil => simpa using containsL_nil_pat r
      | cons _ _ => simp [List.isEmpty] at h
  | cons c cs ih =>
      simp only [containsL, Bool.or_eq_true, List.cons_append] at h ⊢
      rcases h with h | h
      · exact Or.inl (isPrefixL_append _ _ _ h)
      · exact Or.inr (ih h)

theorem containsL_append_right (a s pat : List Char) (h : containsL s pat = true) :
    containsL (a ++ s) pat = true := by
  induction a with
  | nil => simpa using h
  | cons c cs ih =>
      simp only [containsL, Bool.or_eq_true, List.cons_append]
      exact Or.inr ih

theorem hbTicks_append_hbPhaseFirst (n : Nat) (w : Bool) (l : List Ev) :
    hbPhaseFirst (hbTicks w n ++ l) = hbPhaseFirst l := by
  induction n generalizing w with
  | zero => rfl
  | succ n ih => simp [hbTicks, hbPhaseFirst, isHBWrite, ih]

theorem hbTicks_append_tickerStopped (n : Nat) (w : Bool) (l : List Ev) :
    tickerStoppedBeforeData (hbTicks w n ++ l) = tickerStoppedBeforeData l := by
  induction n generalizing w with
  | zero => rfl
  | succ n ih => simp [hbTicks, tickerStoppedBeforeData, ih]

theorem noHBWrite_append (a b : List Ev) :
    noHBWrite (a ++ b) = (noHBWrite a && noHBWrite b) := by
  simp [noHBWrite, List.all_append]

theorem noHBWrite_chunkWrites (cs : List String) : noHBWrite (chunkWrites cs) = true := by
  induction cs with
  | nil => rfl
  | cons c cs ih => simp [chunkWrites, noHBWrite, isHBWrite] at ih ⊢

theorem noHBWrite_finallyEvs (b : Bool) : noHBWrite (finallyEvs b) = true := by
  cases b <;> rfl

/-! ## C1 -/

/-- C1: for every session of the google.ts relay — whatever the number of
heartbeat firings and the upstream outcome — the output stream consists of
zero or more heartbeat frames strictly followed by zero or more
relayed/error frames (once any non-heartbeat frame has been written, no
heartbeat frame is ever written), and the heartbeat interval is cleared
strictly before the first upstream chunk is forwarded. -/
theorem heartbeats_strictly_precede_relayed_frames
    (ft : Nat) (oc : UpstreamOutcome) (t : String) :
    hbPhaseFirst (runRelay ft oc t) = true
    ∧ tickerStoppedBeforeData (runRelay ft oc t) = true := by
  cases oc with
  | fetchFail msg =>
      constructor
      · simp only [runRelay, List.append_assoc, hbTicks_append_hbPhaseFirst]
        simp [hbPhaseFirst, isHBWrite, isWriteEv, noHBWrite_finallyEvs, finallyEvs, noHBWrite]
      · simp only [runRelay, List.append_assoc, hbTicks_append_tickerStopped]
        simp [tickerStoppedBeforeData, finallyEvs]
  | httpErr status statusText bodyTicks bodyText =>
      constructor
      · simp only [runRelay, List.append_assoc, hbTicks_append_hbPhaseFirst]
        simp [hbPhaseFirst, isHBWrite, isWriteEv, noHBWrite_finallyEvs, finallyEvs, noHBWrite]
      · simp only [runRelay, List.append_assoc, hbTicks_append_tickerStopped]
        simp [tickerStoppedBeforeData, finallyEvs]
  | httpOk chunks ending =>
      constructor
      · simp only [runRelay, List.append_assoc, hbTicks_append_hbPhaseFirst]
        cases ending with
        | eos =>
            simp [hbPhaseFirst, isHBWrite, isWriteEv, noHBWrite_append,
              noHBWrite_chunkWrites, noHBWrite_finallyEvs, finallyEvs, noHBWrite]
            intro x hx
            simp only [chunkWrites, List.mem_map] at hx
            obtain ⟨c, -, rfl⟩ := hx
            rfl
        | readFail msg =>
            simp [hbPhaseFirst, isHBWrite, isWriteEv, noHBWrite_append,
              noHBWrite_chunkWrites, noHBWrite_finallyEvs, finallyEvs, noHBWrite]
            intro x hx
            simp only [chunkWrites, List.mem_map] at hx
            obtain ⟨c, -, rfl⟩ := hx
            rfl
      · simp only [runRelay, List.append_assoc, hbTicks_append_tickerStopped]
        simp [tickerStoppedBeforeData]

theorem count_hbTicks_clearHB (w : Bool) (n : Nat) :
    (hbTicks w n).count Ev.clearHeartbeat = 0 := by
  induction n generalizing w with
  | zero => rfl
  | succ n ih => simp [hbTicks, List.count_cons, ih]

theorem count_hbTicks_close (w : Bool) (n : Nat) :
    (hbTicks w n).count Ev.close = 0 := by
  induction n generalizing w with
  | zero => rfl
  | succ n ih => simp [hbTicks, List.count_cons, ih]

theorem count_chunkWrites_clearHB (cs : List String) :
    (chunkWrites cs).count Ev.clearHeartbeat = 0 := by
  induction cs with
  | nil => rfl
  | cons c cs ih => simp [chunkWrites, List.count_cons, ih] at ih ⊢

theorem count_chunkWrites_close (cs : List String) :
    (chunkWrites cs).count Ev.close = 0 := by
  induction cs with
  | nil => rfl
  | cons c cs ih => simp [chunkWrites, List.count_cons, ih] at ih ⊢

theorem getLast?_append_finallyEvs (l : List Ev) (b : Bool) :
    (l ++ finallyEvs b).getLast? = some Ev.close := by
  rw [List.getLast?_append_of_ne_nil]
  · cases b <;> rfl
  · cases b <;> simp [finallyEvs]

theorem count_loopEvs_close (cs : List PartZero.Chunk) (f : Bool) :
    (PartZero.loopEvs cs f).count Ev.close = 0 := by
  induction cs generalizing f with
  | nil => rfl
  | cons c rest ih =>
      simp only [PartZero.loopEvs, List.count_append, ih]
      split_ifs <;> simp [List.count_cons]

theorem getLast?_append_finallyEvsP (l : List Ev) :
    (l ++ PartZero.finallyEvsP).getLast? = some Ev.close := by
  rw [List.getLast?_append_of_ne_nil]
  · rfl
  · simp [PartZero.finallyEvsP]

/-! ## C2 -/

/-- C2: in both revisions of the route, every session trace closes the
output stream writer exactly once, the close is the final action of the
session, and both the deadline timer and the heartbeat interval have been
cleared (strictly earlier in the trace, since the close is last and unique)
on every termination path — upstream end-of-stream, upstream error, fetch
rejection. -/
theorem output_stream_closed_exactly_once
    (ft : Nat) (oc : UpstreamOutcome) (t : String)
    (ftP : Nat) (ocP : PartZero.Outcome) :
    ((runRelay ft oc t).count Ev.close = 1
      ∧ (runRelay ft oc t).getLast? = some Ev.close
      ∧ Ev.clearDeadline ∈ runRelay ft oc t
      ∧ Ev.clearHeartbeat ∈ runRelay ft oc t)
    ∧ ((PartZero.run ftP ocP).count Ev.close = 1
      ∧ (PartZero.run ftP ocP).getLast? = some Ev.close
      ∧ Ev.clearDeadline ∈ PartZero.run ftP ocP
      ∧ Ev.clearHeartbeat ∈ PartZero.run ftP ocP) := by
  constructor
  · refine ⟨?_, ?_, ?_, ?_⟩
    · cases oc with
      | fetchFail msg =>
          simp [runRelay, List.count_append, count_hbTicks_close, finallyEvs, List.count_cons]
      | httpErr status statusText bodyTicks bodyText =>
          simp [runRelay, List.count_append, count_hbTicks_close, finallyEvs, List.count_cons]
      | httpOk chunks ending =>
          cases ending <;>
            simp [runRelay, List.count_append, count_hbTicks_close, count_chunkWrites_close,
              finallyEvs, List.count_cons]
    · cases oc with
      | fetchFail msg => exact getLast?_append_finallyEvs _ _
      | httpErr status statusText bodyTicks bodyText => exact getLast?_append_finallyEvs _ _
      | httpOk chunks ending => cases ending <;> exact getLast?_append_finallyEvs _ _
    · cases oc with
      | fetchFail msg => simp [runRelay, finallyEvs]
      | httpErr status statusText bodyTicks bodyText => simp [runRelay, finallyEvs]
      | httpOk chunks ending => cases ending <;> simp [runRelay, finallyEvs]
    · cases oc with
      | fetchFail msg => simp [runRelay, finallyEvs]
      | httpErr status statusText bodyTicks bodyText => simp [runRelay, finallyEvs]
      | httpOk chunks ending => cases ending <;> simp [runRelay, finallyEvs]
  · refine ⟨?_, ?_, ?_, ?_⟩
    · cases ocP with
      | fetchFail msg =>
          simp [PartZero.run, List.count_append, PartZero.hbTicksP, List.count_replicate,
            PartZero.finallyEvsP, List.count_cons]
      | ok chunks =>
          simp [PartZero.run, List.count_append, PartZero.hbTicksP, List.count_replicate,
            count_loopEvs_close, PartZero.finallyEvsP, List.count_cons]
    · cases ocP with
      | fetchFail msg => exact getLast?_append_finallyEvsP _
      | ok chunks => exact getLast?_append_finallyEvsP _
    · cases ocP with
      | fetchFail msg => simp [PartZero.run, PartZero.finallyEvsP]
      | ok chunks => simp [PartZero.run, PartZero.finallyEvsP]
    · cases ocP with
      | fetchFail msg => simp [PartZero.run, PartZero.finallyEvsP]
      | ok chunks => simp [PartZero.run, PartZero.finallyEvsP]

/-! ## C8 -/

/-- C8: the guarded stop of the heartbeat interval is idempotent — a second
stop changes nothing and emits nothing, the callback emits no frame once
stopped — and in every session trace of the google.ts relay the interval is
cleared exactly once and the writer is closed exactly once. -/
theorem ticker_stop_and_close_idempotent :
    (∀ s : TickerState, stopTicker (stopTicker s).1 = ((stopTicker s).1, []))
    ∧ (∀ (s : TickerState) (w : Bool), tickOnce (stopTicker s).1 w = [])
    ∧ ∀ (ft : Nat) (oc : UpstreamOutcome) (t : String),
        (runRelay ft oc t).count Ev.clearHeartbeat = 1
        ∧ (runRelay ft oc t).count Ev.close = 1 := by
  refine ⟨?_, ?_, ?_⟩
  · intro s
    cases s with
    | mk a => cases a <;> rfl
  · intro s w
    cases s with
    | mk a => cases a <;> rfl
  · intro ft oc t
    constructor
    · cases oc with
      | fetchFail msg =>
          simp [runRelay, List.count_append, count_hbTicks_clearHB, finallyEvs, List.count_cons]
      | httpErr status statusText bodyTicks bodyText =>
          simp [runRelay, List.count_append, count_hbTicks_clearHB, finallyEvs, List.count_cons]
      | httpOk chunks ending =>
          cases ending <;>
            simp [runRelay, List.count_append, count_hbTicks_clearHB, count_chunkWrites_clearHB,
              finallyEvs, List.count_cons]
    · cases oc with
      | fetchFail msg =>
          simp [runRelay, List.count_append, count_hbTicks_close, finallyEvs, List.count_cons]
      | httpErr status statusText bodyTicks bodyText =>
          simp [runRelay, List.count_append, count_hbTicks_close, finallyEvs, List.count_cons]
      | httpOk chunks ending =>
          cases ending <;>
            simp [runRelay, List.count_append, count_hbTicks_close, count_chunkWrites_close,
              finallyEvs, List.count_cons]

/-! ## C5 helper lemmas -/

theorem dataWrites_append (a b : List Ev) :
    dataWrites (a ++ b) = dataWrites a ++ dataWrites b := by
  induction a with
  | nil => rfl
  | cons e l ih =>
      cases e with
      | write site s => cases site <;> simp [dataWrites, ih]
      | clearHeartbeat => simp [dataWrites, ih]
      | clearDeadline => simp [dataWrites, ih]
      | abortUpstream => simp [dataWrites, ih]
      | close => simp [dataWrites, ih]

theorem dataWrites_hbTicks (w : Bool) (n : Nat) : dataWrites (hbTicks w n) = [] := by
  induction n generalizing w with
  | zero => rfl
  | succ n ih => simp [hbTicks, dataWrites, ih]

theorem dataWrites_chunkWrites (cs : List String) : dataWrites (chunkWrites cs) = cs := by
  induction cs with
  | nil => rfl
  | cons c cs ih => simp [chunkWrites, dataWrites] at ih ⊢; exact ih

theorem dataWrites_finallyEvs (b : Bool) : dataWrites (finallyEvs b) = [] := by
  cases b <;> rfl

theorem dataWrites_loopEvs (cs : List PartZero.Chunk) (f : Bool) :
    dataWrites (PartZero.loopEvs cs f)
      = ((cs.map PartZero.textOf).filter (fun s => !(s == ""))).map PartZero.chunkFrame := by
  induction cs generalizing f with
  | nil => rfl
  | cons c rest ih =>
      by_cases h : PartZero.textOf c = "" <;>
        cases f <;>
          simp [PartZero.loopEvs, h, dataWrites, dataWrites_append, List.filter_cons, ih]

/-! ## C5 -/

/-- C5 counterexample: the part_000 revision of the splice loop does not
copy upstream chunks verbatim — a chunk whose extracted text is "hi" is
re-wrapped into a different frame, and a chunk without delta content is
dropped entirely (two chunks read, one frame written). -/
theorem part_zero_drops_and_transforms_chunks :
    dataWrites (PartZero.run 0 (.ok [⟨some "hi"⟩, ⟨none⟩])) = [PartZero.chunkFrame "hi"]
    ∧ PartZero.chunkFrame "hi" ≠ "hi" := by
  constructor <;> decide

/-- C5 amended: in the google.ts relay, once relaying begins every upstream
chunk is written verbatim (modulo the UTF-8 decode/re-encode) to the output
stream, in order, until end-of-stream or read failure; in the part_000
variant the splice loop instead keeps only the nonempty
`choices[0].delta.content` of each chunk, re-wrapped as a
`data: JSON.stringify(text)` frame. -/
theorem splice_forwarding_characterization :
    (∀ (ft : Nat) (chunks : List String) (ending : StreamEnd) (t : String),
        dataWrites (runRelay ft (.httpOk chunks ending) t) = chunks)
    ∧ (∀ (ftP : Nat) (cs : List PartZero.Chunk),
        dataWrites (PartZero.run ftP (.ok cs))
          = ((cs.map PartZero.textOf).filter (fun s => !(s == ""))).map PartZero.chunkFrame) := by
  constructor
  · intro ft chunks ending t
    cases ending <;>
      simp [runRelay, dataWrites_append, dataWrites_hbTicks, dataWrites_chunkWrites,
        dataWrites_finallyEvs, dataWrites]
  · intro ftP cs
    have hhb : dataWrites (PartZero.hbTicksP ftP) = [] := by
      induction ftP with
      | zero => rfl
      | succ n ih => simp [PartZero.hbTicksP, dataWrites, List.replicate] at ih ⊢; exact ih
    simp [PartZero.run, dataWrites_append, hhb, dataWrites_loopEvs,
      PartZero.finallyEvsP, dataWrites]

/-! ## C3 helper lemmas -/

theorem writes_append (a b : List Ev) :
    writes (a ++ b) = writes a ++ writes b := by
  induction a with
  | nil => rfl
  | cons e l ih =>
      cases e with
      | write site s => simp [writes, ih]
      | clearHeartbeat => simp [writes, ih]
      | clearDeadline => simp [writes, ih]
      | abortUpstream => simp [writes, ih]
      | close => simp [writes, ih]

theorem writes_hbTicks_mem (w : Bool) (n : Nat) :
    ∀ s ∈ writes (hbTicks w n), s = envelope "> Waiting." ∨ s = envelope "." := by
  induction n generalizing w with
  | zero => intro s hs; simp [hbTicks, writes] at hs
  | succ n ih =>
      intro s hs
      rw [hbTicks] at hs
      simp only [writes] at hs
      rcases List.mem_cons.mp hs with h | h
      · cases w
        · exact Or.inl h
        · exact Or.inr h
      · exact ih true s h

theorem filter_writes_hbTicks (p : String → Bool) (w : Bool) (n : Nat)
    (h1 : p (envelope "> Waiting.") = false) (h2 : p (envelope ".") = false) :
    (writes (hbTicks w n)).filter p = [] := by
  refine List.filter_eq_nil_iff.mpr ?_
  intro s hs
  rcases writes_hbTicks_mem w n s hs with rfl | rfl <;> simp [h1, h2]

/-! ## C3 -/

/-- C3 counterexample: when the upstream responds 500 with body
"server error" (here: one heartbeat during the fetch, one during the body
read), the output stream does not contain exactly one error frame — the
non-ok branch writes the detailed error frame and then throws, and the
catch block writes a second, generic error frame. -/
theorem second_error_frame_on_http500 :
    errorFrameCount (runRelay 1 (.httpErr 500 "Internal Server Error" 1 "server error") "3") = 2
    ∧ ¬ errorFrameCount (runRelay 1 (.httpErr 500 "Internal Server Error" 1 "server error") "3")
        = 1 := by
  constructor <;> decide

/-- C3 amended: for every session in which the upstream responds HTTP 500
(statusText "Internal Server Error") with body "server error", the output
stream contains exactly one frame referencing both status 500 and the body
text; a second, generic error frame (from the thrown relay-abort error,
referencing only the status) follows it, making two error frames in total;
the stream is then closed (the close is the last action and happens exactly
once); and the client-facing HTTP response status remains 200. -/
theorem http500_error_frame_then_close (ft bt : Nat) (t : String) :
    ((writes (runRelay ft (.httpErr 500 "Internal Server Error" bt "server error") t)).filter
        (fun s => occursIn "500" s && occursIn "server error" s)).length = 1
    ∧ errorFrameCount (runRelay ft (.httpErr 500 "Internal Server Error" bt "server error") t) = 2
    ∧ (runRelay ft (.httpErr 500 "Internal Server Error" bt "server error") t).count Ev.close = 1
    ∧ (runRelay ft (.httpErr 500 "Internal Server Error" bt "server error") t).getLast?
        = some Ev.close
    ∧ relayResponse.status = 200 := by
  refine ⟨?_, ?_, ?_, ?_, rfl⟩
  · simp only [runRelay, List.append_assoc]
    rw [writes_append, writes_append, List.filter_append, List.filter_append,
      filter_writes_hbTicks _ _ _ (by decide) (by decide),
      filter_writes_hbTicks _ _ _ (by decide) (by decide)]
    decide
  · simp only [errorFrameCount, runRelay, List.append_assoc]
    rw [writes_append, writes_append, List.filter_append, List.filter_append,
      filter_writes_hbTicks _ _ _ (by decide) (by decide),
      filter_writes_hbTicks _ _ _ (by decide) (by decide)]
    decide
  · simp [runRelay, List.count_append, count_hbTicks_close, finallyEvs, List.count_cons]
  · exact getLast?_append_finallyEvs _ _

/-! ## C4 -/

/-- C4: whenever the upstream call has not resolved by the 10-minute
deadline, the deadline timer aborts the in-flight request, the relay writes
an error frame (the catch-block frame, which carries the error marker) into
the already-open output stream, clears both timers, and closes the stream
as its final action — the session trace is finite and ends with the close —
while the client-facing HTTP response status stays 200. -/
theorem deadline_abort_emits_error_and_closes
    (ft : Nat) (fetchMs : Option Nat) (resolved : UpstreamOutcome) (abortMsg t : String)
    (h : deadlineExceeded fetchMs = true) :
    Ev.abortUpstream ∈ timedRelay ft fetchMs resolved abortMsg t
    ∧ Ev.write .caughtErr (catchFrame abortMsg) ∈ timedRelay ft fetchMs resolved abortMsg t
    ∧ isErrorFrameStr (catchFrame abortMsg) = true
    ∧ (timedRelay ft fetchMs resolved abortMsg t).count Ev.close = 1
    ∧ (timedRelay ft fetchMs resolved abortMsg t).getLast? = some Ev.close
    ∧ relayResponse.status = 200 := by
  refine ⟨?_, ?_, ?_, ?_, ?_, rfl⟩
  · simp [timedRelay, h]
  · simp [timedRelay, h]
  · show occursIn "\"error\"" (catchFrame abortMsg) = true
    have hd : (catchFrame abortMsg).data
        = ("data: \x7b\"error\":true,\"message\":".data ++ (jsonStr abortMsg).data)
          ++ ("\x7d\n\n" : String).data := by
      simp [catchFrame, String.data_append]
    rw [occursIn, hd]
    exact containsL_append_left _ _ _
      (containsL_append_left _ _ _ (by decide))
  · simp only [timedRelay, h, if_true]
    simp [List.count_append, count_hbTicks_close, finallyEvs, List.count_cons]
  · simp only [timedRelay, h, if_true]
    exact getLast?_append_finallyEvs _ _

/-- C4 witness: a concrete session whose upstream call never resolves. -/
theorem deadline_abort_emits_error_and_closes_witness :
    deadlineExceeded none = true
    ∧ (Ev.abortUpstream ∈ timedRelay 2 none (.httpOk [] .eos) "The operation was aborted." "0"
      ∧ Ev.write .caughtErr (catchFrame "The operation was aborted.")
          ∈ timedRelay 2 none (.httpOk [] .eos) "The operation was aborted." "0"
      ∧ isErrorFrameStr (catchFrame "The operation was aborted.") = true
      ∧ (timedRelay 2 none (.httpOk [] .eos) "The operation was aborted." "0").count Ev.close = 1
      ∧ (timedRelay 2 none (.httpOk [] .eos) "The operation was aborted." "0").getLast?
          = some Ev.close
      ∧ relayResponse.status = 200) :=
  ⟨by decide,
    deadline_abort_emits_error_and_closes 2 none (.httpOk [] .eos)
      "The operation was aborted." "0" (by decide)⟩

/-! ## Handler-level helper lemmas -/

theorem token_of_no_headers (req : Req) (h1 : req.xGoogApiKey = none)
    (h2 : req.authHdr = none) : token req = "" := by
  have hb : bearToken req = "" := by simp [bearToken, h1, h2, jsOrStr]
  rw [token, hb]
  decide

/-! ## C6 -/

/-- C6 counterexample: for a concrete authenticated request with no
credential headers and no configured fallback key, the handler does take
the 401 missing-key branch, but its body message is
"missing GOOGLE_API_KEY in server env vars", not "missing API key" as the
claim states. -/
theorem missing_key_message_differs :
    handle cfg0 authOk req0 = .missingKey
    ∧ handleStatus (handle cfg0 authOk req0) = 401
    ∧ ¬ missingKeyBody.message = "missing API key" := by
  refine ⟨by decide, by decide, by decide⟩

/-- C6 amended: for every request that passes auth, is not an OPTIONS
pre-flight, carries no API key in either credential header, and meets an
empty configured fallback key, the handler returns the 401 missing-key
branch whose body is `error := true` with message
"missing GOOGLE_API_KEY in server env vars", and no stream is opened. -/
theorem missing_key_returns_401 (cfg : ServerConfig) (a : AuthResult) (req : Req)
    (hA : a.error = false) (hM : ¬ req.method = "OPTIONS")
    (h1 : req.xGoogApiKey = none) (h2 : req.authHdr = none)
    (hK : cfg.googleApiKey = "") :
    handle cfg a req = .missingKey
    ∧ handleStatus (handle cfg a req) = 401
    ∧ missingKeyBody = { error := true, message := "missing GOOGLE_API_KEY in server env vars" }
    ∧ opensStream (handle cfg a req) = false := by
  have ht : token req = "" := token_of_no_headers req h1 h2
  have hr : resolvedApiKey cfg req = "" := by simp [resolvedApiKey, ht, hK]
  refine ⟨?_, ?_, rfl, ?_⟩ <;> simp [handle, hM, hA, hr, handleStatus, opensStream]

/-- C6 witness: the amended theorem applied at a concrete request/config. -/
theorem missing_key_returns_401_witness :
    (authOk.error = false ∧ ¬ req0.method = "OPTIONS" ∧ req0.xGoogApiKey = none
      ∧ req0.authHdr = none ∧ cfg0.googleApiKey = "")
    ∧ (handle cfg0 authOk req0 = .missingKey
      ∧ handleStatus (handle cfg0 authOk req0) = 401
      ∧ missingKeyBody = { error := true, message := "missing GOOGLE_API_KEY in server env vars" }
      ∧ opensStream (handle cfg0 authOk req0) = false) :=
  ⟨⟨rfl, by decide, rfl, rfl, rfl⟩,
    missing_key_returns_401 cfg0 authOk req0 rfl (by decide) rfl rfl rfl⟩

/-! ## C7 -/

/-- C7: an OPTIONS request is answered with the 200 acknowledgement before
the auth resolver is consulted (the result is the same for any auth
outcome), and no upstream call, heartbeat timer or stream is started. -/
theorem options_short_circuits (cfg : ServerConfig) (a1 a2 : AuthResult) (req : Req)
    (h : req.method = "OPTIONS") :
    handle cfg a1 req = .optionsOk
    ∧ handle cfg a1 req = handle cfg a2 req
    ∧ handleStatus (handle cfg a1 req) = 200
    ∧ opensStream (handle cfg a1 req) = false := by
  refine ⟨?_, ?_, ?_, ?_⟩ <;> simp [handle, h, handleStatus, opensStream]

/-- C7 witness: the theorem applied at a concrete OPTIONS request, with the
two auth outcomes chosen to differ. -/
theorem options_short_circuits_witness :
    ({ req0 with method := "OPTIONS" } : Req).method = "OPTIONS"
    ∧ (handle cfg0 authOk { req0 with method := "OPTIONS" } = .optionsOk
      ∧ handle cfg0 authOk { req0 with method := "OPTIONS" }
          = handle cfg0 { error := true } { req0 with method := "OPTIONS" }
      ∧ handleStatus (handle cfg0 authOk { req0 with method := "OPTIONS" }) = 200
      ∧ opensStream (handle cfg0 authOk { req0 with method := "OPTIONS" }) = false) :=
  ⟨rfl, options_short_circuits cfg0 authOk { error := true } { req0 with method := "OPTIONS" } rfl⟩

/-! ## C9 -/

/-- C9: when neither credential header is present but the config supplies a
nonempty fallback key, the handler does not return 401 — it starts the
relay with the fallback key — yet the outbound upstream `x-goog-api-key`
header, rebuilt from the inbound headers only, is the empty string: the
fallback key is never forwarded upstream. -/
theorem fallback_key_not_forwarded (cfg : ServerConfig) (a : AuthResult) (req : Req)
    (hA : a.error = false) (hM : ¬ req.method = "OPTIONS")
    (h1 : req.xGoogApiKey = none) (h2 : req.authHdr = none)
    (hK : ¬ cfg.googleApiKey = "") :
    handle cfg a req = .relayStarted cfg.googleApiKey
    ∧ ¬ handleStatus (handle cfg a req) = 401
    ∧ outboundApiKeyHeader req = "" := by
  have ht : token req = "" := token_of_no_headers req h1 h2
  have hr : resolvedApiKey cfg req = cfg.googleApiKey := by simp [resolvedApiKey, ht]
  refine ⟨?_, ?_, ?_⟩
  · simp [handle, hM, hA, hr, hK]
  · simp [handle, hM, hA, hr, hK, handleStatus]
  · simp only [outboundApiKeyHeader, h1, h2]
    decide

/-- C9 witness: the theorem applied at a concrete request and a config with
fallback key "fallback-key". -/
theorem fallback_key_not_forwarded_witness :
    (authOk.error = false ∧ ¬ req0.method = "OPTIONS" ∧ req0.xGoogApiKey = none
      ∧ req0.authHdr = none ∧ ¬ cfg1.googleApiKey = "")
    ∧ (handle cfg1 authOk req0 = .relayStarted cfg1.googleApiKey
      ∧ ¬ handleStatus (handle cfg1 authOk req0) = 401
      ∧ outboundApiKeyHeader req0 = "") :=
  ⟨⟨rfl, by decide, rfl, rfl, by decide⟩,
    fallback_key_not_forwarded cfg1 authOk req0 rfl (by decide) rfl rfl (by decide)⟩

/-! ## C10 -/

/-- C10: the upstream fetch URL carries the appended query string
"?alt=sse" exactly when the inbound `alt` query parameter equals "sse" (and
otherwise carries no query string at all), and every other inbound query
parameter is dropped: two requests whose `alt` lookups agree produce the
same fetch URL whatever their remaining parameters. -/
theorem only_alt_sse_query_forwarded (cfg : ServerConfig) (gemini apiPath : String)
    (req : Req) (q : List (String × String))
    (h : getParam q "alt" = getParam req.searchParams "alt") :
    (fetchQuery req = "?alt=sse" ↔ getParam req.searchParams "alt" = some "sse")
    ∧ (fetchQuery req = "?alt=sse" ∨ fetchQuery req = "")
    ∧ fetchUrl cfg gemini apiPath { req with searchParams := q }
        = fetchUrl cfg gemini apiPath req
    ∧ fetchUrl cfg gemini apiPath req
        = normalizeBaseUrl (rawBaseUrl cfg gemini) ++ routePath apiPath req ++ fetchQuery req := by
  refine ⟨?_, ?_, ?_, rfl⟩
  · constructor
    · intro hq
      by_contra hne
      rw [fetchQuery, if_neg hne] at hq
      exact absurd hq (by decide)
    · intro hq
      rw [fetchQuery, if_pos hq]
  · by_cases hq : getParam req.searchParams "alt" = some "sse"
    · exact Or.inl (by rw [fetchQuery, if_pos hq])
    · exact Or.inr (by rw [fetchQuery, if_neg hq])
  · simp [fetchUrl, routePath, fetchQuery, h]

/-- C10 witness: a request with parameters alt=sse and key=abc compared
against one carrying only alt=sse. -/
theorem only_alt_sse_query_forwarded_witness :
    getParam [("alt", "sse")] "alt"
      = getParam ({ req0 with searchParams := [("alt", "sse"), ("key", "abc")] } : Req).searchParams
          "alt"
    ∧ ((fetchQuery { req0 with searchParams := [("alt", "sse"), ("key", "abc")] } = "?alt=sse"
        ↔ getParam ({ req0 with
            searchParams := [("alt", "sse"), ("key", "abc")] } : Req).searchParams "alt"
          = some "sse")
      ∧ (fetchQuery { req0 with searchParams := [("alt", "sse"), ("key", "abc")] } = "?alt=sse"
        ∨ fetchQuery { req0 with searchParams := [("alt", "sse"), ("key", "abc")] } = "")
      ∧ fetchUrl cfg0 "https://generativelanguage.googleapis.com" "/api/google"
          { { req0 with searchParams := [("alt", "sse"), ("key", "abc")] } with
            searchParams := [("alt", "sse")] }
        = fetchUrl cfg0 "https://generativelanguage.googleapis.com" "/api/google"
            { req0 with searchParams := [("alt", "sse"), ("key", "abc")] }
      ∧ fetchUrl cfg0 "https://generativelanguage.googleapis.com" "/api/google"
          { req0 with searchParams := [("alt", "sse"), ("key", "abc")] }
        = normalizeBaseUrl (rawBaseUrl cfg0 "https://generativelanguage.googleapis.com")
          ++ routePath "/api/google" { req0 with searchParams := [("alt", "sse"), ("key", "abc")] }
          ++ fetchQuery { req0 with searchParams := [("alt", "sse"), ("key", "abc")] }) :=
  ⟨by decide,
    only_alt_sse_query_forwarded cfg0 "https://generativelanguage.googleapis.com" "/api/google"
      { req0 with searchParams := [("alt", "sse"), ("key", "abc")] } [("alt", "sse")] (by decide)⟩

end GoogleRoute
